import Mathlib

/-!
Verification of the hybrid ECC-AES cloud-workload encryption system
(`src/crypto/ecc_manager.py`, `src/crypto/aes_manager.py`,
`src/crypto/hybrid_encryption.py`) against its specification.

Modelling conventions:
* Byte strings are `List Nat` (each entry a byte value).
* Python `str` values are lists of Unicode code points (`List Nat`); the
  `str.encode('utf-8')` / `bytes.decode('utf-8')` pair is embedded
  concretely (`utf8Encode` / `utf8Decode`).
* The cryptographic primitives supplied by the `cryptography` /
  `pycryptodome` libraries (HKDF-SHA256, AES-CBC with a symbolic key,
  ECDSA, PEM and base64 encodings) are embedded symbolically: values that
  flow through them live in the free term algebra `Msg`, whose
  constructors record exactly the arguments the source passes.  The EC
  group is embedded as the cyclic group generated by the base point: a
  public key is the point `[d mod n]G`, represented by `Msg.point n (d % n)`
  where `n` is the order of the chosen curve, and ECDH scalar
  multiplication is multiplication mod `n`.
* PKCS#7 padding/unpadding (`Crypto.Util.Padding.pad/unpad`) and the
  chunked CBC file-encryption loop of `AESManager.encrypt_file` are
  embedded concretely at byte level, parametric in the AES block
  permutation.
-/

namespace HybridEccAes

/-- Byte values of an ASCII string (used for concrete regions, workload
types and the HKDF info tags, whose characters are all ASCII, where a
character's code point equals its UTF-8 byte). -/
def strBytes (s : String) : List Nat := s.data.map Char.toNat

/-! ### UTF-8 (Python `str.encode('utf-8')` / `bytes.decode('utf-8')`) -/

/-- A Unicode scalar value: any code point that a Python `str` can hold
and `str.encode('utf-8')` accepts (i.e. not a surrogate, below 0x110000). -/
def ValidScalar (c : Nat) : Prop := c < 55296 ∨ (57344 ≤ c ∧ c < 1114112)

instance (c : Nat) : Decidable (ValidScalar c) := by
  unfold ValidScalar; infer_instance

/-- UTF-8 encoding of one code point. -/
def utf8EncodeChar (c : Nat) : List Nat :=
  if c < 128 then [c]
  else if c < 2048 then [192 + c / 64, 128 + c % 64]
  else if c < 65536 then [224 + c / 4096, 128 + c / 64 % 64, 128 + c % 64]
  else [240 + c / 262144, 128 + c / 4096 % 64, 128 + c / 64 % 64, 128 + c % 64]

/-- UTF-8 encoding of a Python string (list of code points). -/
def utf8Encode (s : List Nat) : List Nat := (s.map utf8EncodeChar).flatten

/-- A UTF-8 continuation byte. -/
def ContByte (x : Nat) : Prop := 128 ≤ x ∧ x < 192

instance (x : Nat) : Decidable (ContByte x) := by
  unfold ContByte; infer_instance

/-- Decode one UTF-8 sequence from the front of a nonempty byte stream:
returns the code point and the remaining bytes, or `none` on a malformed
sequence (truncated input, stray continuation or invalid lead byte,
overlong encoding, surrogate, or value above 0x10FFFF) — exactly the
inputs strict `bytes.decode('utf-8')` rejects. -/
def decodeOne : List Nat → Option (Nat × List Nat)
  | [] => none
  | b :: rest =>
    if b < 128 then some (b, rest)
    else if b < 194 then none
    else if b < 224 then
      if 1 ≤ rest.length ∧ ContByte (rest.getD 0 0) then
        some ((b - 192) * 64 + (rest.getD 0 0 - 128), rest.drop 1)
      else none
    else if b < 240 then
      if 2 ≤ rest.length ∧ ContByte (rest.getD 0 0) ∧ ContByte (rest.getD 1 0) then
        if 2048 ≤ (b - 224) * 4096 + (rest.getD 0 0 - 128) * 64 + (rest.getD 1 0 - 128) ∧
           ((b - 224) * 4096 + (rest.getD 0 0 - 128) * 64 + (rest.getD 1 0 - 128) < 55296 ∨
            57344 ≤ (b - 224) * 4096 + (rest.getD 0 0 - 128) * 64 + (rest.getD 1 0 - 128)) then
          some ((b - 224) * 4096 + (rest.getD 0 0 - 128) * 64 + (rest.getD 1 0 - 128),
            rest.drop 2)
        else none
      else none
    else if b < 245 then
      if 3 ≤ rest.length ∧ ContByte (rest.getD 0 0) ∧ ContByte (rest.getD 1 0) ∧
         ContByte (rest.getD 2 0) then
        if 65536 ≤ (b - 240) * 262144 + (rest.getD 0 0 - 128) * 4096 +
             (rest.getD 1 0 - 128) * 64 + (rest.getD 2 0 - 128) ∧
           (b - 240) * 262144 + (rest.getD 0 0 - 128) * 4096 +
             (rest.getD 1 0 - 128) * 64 + (rest.getD 2 0 - 128) < 1114112 then
          some ((b - 240) * 262144 + (rest.getD 0 0 - 128) * 4096 +
            (rest.getD 1 0 - 128) * 64 + (rest.getD 2 0 - 128), rest.drop 3)
        else none
      else none
    else none

/-- Decode a whole byte stream, one UTF-8 sequence at a time; `fuel`
bounds the recursion depth (each decoded sequence consumes at least one
byte, so any `fuel` at least the byte count suffices). -/
def utf8DecodeLoop (fuel : Nat) (l : List Nat) : Option (List Nat) :=
  if l = [] then some []
  else
    match fuel with
    | 0 => none
    | Nat.succ f =>
      match decodeOne l with
      | none => none
      | some (c, r) => (utf8DecodeLoop f r).map (fun s => c :: s)

/-- Strict UTF-8 decoding, as performed by Python's `bytes.decode('utf-8')`:
`none` models a raised `UnicodeDecodeError`. -/
def utf8Decode (l : List Nat) : Option (List Nat) := utf8DecodeLoop l.length l

/-! ### PKCS#7 padding (`Crypto.Util.Padding.pad` / `unpad`, block size 16) -/

/-- `Crypto.Util.Padding.pad(data, 16)`: always appends between 1 and 16
bytes, each equal to the number of appended bytes. -/
def pad16 (d : List Nat) : List Nat :=
  d ++ List.replicate (16 - d.length % 16) (16 - d.length % 16)

/-- `Crypto.Util.Padding.unpad(data, 16)`: `none` models the
`ValueError` raised on input whose length is not a multiple of 16, whose
final byte is not a valid padding length, or whose trailing bytes do not
all equal the padding length. -/
def unpad16 (d : List Nat) : Option (List Nat) :=
  if d.length % 16 ≠ 0 then none
  else
    match d.getLast? with
    | none => none
    | some p =>
      if 1 ≤ p ∧ p ≤ 16 ∧ p ≤ d.length ∧
         d.drop (d.length - p) = List.replicate p p then
        some (d.take (d.length - p))
      else none

/-! ### Curve registry (`ECCManager.__init__`) -/

/-- The three curves of `ECCManager.curve_map` (`ec.SECP256R1()`,
`ec.SECP384R1()`, `ec.SECP521R1()`). -/
inductive Curve : Type where
  | secp256r1 : Curve
  | secp384r1 : Curve
  | secp521r1 : Curve
deriving DecidableEq, Repr

/-- The order of the base-point group of each curve (the curve parameter
relevant to the embedding of scalar multiplication). -/
def curveOrder : Curve → Nat
  | .secp256r1 =>
      0xFFFFFFFF00000000FFFFFFFFFFFFFFFFBCE6FAADA7179E84F3B9CAC2FC632551
  | .secp384r1 =>
      0xFFFFFFFFFFFFFFFFFFFFFFFFFFFFFFFFFFFFFFFFFFFFFFFFC7634D81F4372DDF581A0DB248B0A77AECEC196ACCC52973
  | .secp521r1 =>
      0x1FFFFFFFFFFFFFFFFFFFFFFFFFFFFFFFFFFFFFFFFFFFFFFFFFFFFFFFFFFFFFFFFA51868783BF2F966B7FCC0148F709A5D03BB5C9B8899C47AEBB6FB71E91386409

/-- `ECCManager.curve_map`: the dict literal maps exactly the keys
`"secp256r1"`, `"secp384r1"`, `"secp521r1"`; `.get` on any other key
returns `None`. -/
def curve_map (curve_type : String) : Option Curve :=
  if curve_type = "secp256r1" then some Curve.secp256r1
  else if curve_type = "secp384r1" then some Curve.secp384r1
  else if curve_type = "secp521r1" then some Curve.secp521r1
  else none

/-- The `ECCManager` object: its only state is the selected curve. -/
structure ECCManager : Type where
  curve : Curve
deriving DecidableEq, Repr

/-- `ECCManager.__init__`: `self.curve = self.curve_map.get(curve_type,
ec.SECP256R1())` — unknown identifiers fall back to SECP256R1, no error
path. -/
def mkECCManager (curve_type : String) : ECCManager :=
  { curve := (curve_map curve_type).getD Curve.secp256r1 }

/-! ### Symbolic byte-string values -/

/-- The free term algebra of byte-string values produced by the library
cryptographic primitives.  Concrete bytes are `bytes`; each other
constructor records the exact arguments the source passes to the
corresponding library call:

* `point n d` — the x-coordinate byte string of the point `[d]G` on the
  curve whose group order is `n` (`d` reduced mod `n`); used both for
  serialized-point material and for the raw ECDH output
  (`private_key.exchange(ec.ECDH(), peer_public_key)`).
* `hkdf len salt info ikm` — `HKDF(algorithm=SHA256, length=len,
  salt=salt, info=info).derive(ikm)`; `salt = none` models `salt=None`.
* `aesb64 key iv padded` — the value returned by
  `AESManager.encrypt_data`: `base64.b64encode(iv + AES_CBC(key, iv)
  .encrypt(padded))`, with `padded` the PKCS#7-padded plaintext.
* `pem k` — `serialize_public_key`: the PEM/SubjectPublicKeyInfo text of
  public key `k`.
* `ecdsaSig n priv m` — an ECDSA-SHA256 signature over message `m` by the
  private scalar `priv` on the curve of order `n`.
* `b64 m` — `base64.b64encode(m)` rendered as text.
* `json cpk region ed et ts wt` — `json.dumps(package, sort_keys=True)`
  of a signature-less workload package; the arguments appear in sorted
  key order (`client_public_key`, `cloud_region`, `encrypted_data`,
  `encryption_time`, `timestamp`, `workload_type`).  Constructor
  injectivity embeds the injectivity of the canonical JSON encoding on
  fixed-shape string-keyed packages. -/
inductive Msg : Type where
  | bytes : List Nat → Msg
  | point : Nat → Nat → Msg
  | hkdf : Nat → Option (List Nat) → List Nat → Msg → Msg
  | aesb64 : Msg → List Nat → List Nat → Msg
  | pem : Msg → Msg
  | ecdsaSig : Nat → Nat → Msg → Msg
  | b64 : Msg → Msg
  | json : Msg → List Nat → Msg → Nat → Nat → List Nat → Msg
deriving DecidableEq, Repr

/-- The public key of the private scalar `d` on a curve of group order
`n`: the point `[d]G`, i.e. `[d mod n]G`. -/
def pubKeyOfScalar (n d : Nat) : Msg := Msg.point n (d % n)

/-- `private_key.exchange(ec.ECDH(), peer_public_key)`: scalar
multiplication of the peer's point by the private scalar.  Both keys live
on the ECCManager's single curve, so the peer value is always a `point`
term; the catch-all branch is unreachable in the embedded flows. -/
def ecdhExchange (priv : Nat) (peer : Msg) : Msg :=
  match peer with
  | Msg.point n d => Msg.point n (priv * d % n)
  | _ => Msg.bytes []

/-! ### ECCManager operations -/

/-- The UTF-8 bytes of the fixed info tag `b'cloud-workload-encryption'`
of `ECCManager.derive_shared_key`. -/
def infoCloud : List Nat := strBytes "cloud-workload-encryption"

/-- The UTF-8 bytes of the fixed info tag
`b'hybrid-ecc-aes-cloud-workload'` of
`HybridECCAES._derive_cloud_specific_key`. -/
def infoHybrid : List Nat := strBytes "hybrid-ecc-aes-cloud-workload"

/-- `ECCManager.generate_key_pair`, with the random private scalar made
an explicit argument: returns `(private_key, private_key.public_key())`. -/
def generate_key_pair (m : ECCManager) (scalar : Nat) : Nat × Msg :=
  (scalar, pubKeyOfScalar (curveOrder m.curve) scalar)

/-- `ECCManager.derive_shared_key(private_key, peer_public_key,
key_length=32)`: the raw ECDH exchange followed by
`HKDF(SHA256, length=key_length, salt=None,
info=b'cloud-workload-encryption').derive(shared_key)`. -/
def derive_shared_key (priv : Nat) (peer : Msg) (key_length : Nat := 32) : Msg :=
  Msg.hkdf key_length none infoCloud (ecdhExchange priv peer)

/-- `ECCManager.serialize_public_key`: PEM/SubjectPublicKeyInfo text. -/
def serialize_public_key (k : Msg) : Msg := Msg.pem k

/-- `ECCManager.deserialize_public_key`
(`serialization.load_pem_public_key`): inverts the PEM encoding; the
error branch models the exception raised on input that is not a PEM
public key. -/
def deserialize_public_key (b : Msg) : Except Unit Msg :=
  match b with
  | Msg.pem k => Except.ok k
  | _ => Except.error ()

/-- `ECCManager.sign_data`: ECDSA-sign and return
`base64.b64encode(signature).decode('utf-8')`. -/
def sign_data (n priv : Nat) (data : Msg) : Msg :=
  Msg.b64 (Msg.ecdsaSig n priv data)

/-- Outcome of the `try` body of `ECCManager.verify_signature`: `ok`
models `public_key.verify` returning, `error` models any exception
(`binascii.Error` from `b64decode`, `InvalidSignature` from `verify`,
or an attribute/type error on non-textual input). -/
def verifyAttempt (pub data signature : Msg) : Except Unit Unit :=
  match signature with
  | Msg.b64 inner =>
    match inner with
    | Msg.ecdsaSig n d m =>
        if pub = Msg.point n (d % n) ∧ m = data then Except.ok ()
        else Except.error ()
    | _ => Except.error ()
  | _ => Except.error ()

/-- `ECCManager.verify_signature`: the whole body runs inside
`try: ...; return True / except Exception: return False`, so the result
is a `Bool` and no exception escapes. -/
def verify_signature (pub data signature : Msg) : Bool :=
  match verifyAttempt pub data signature with
  | Except.ok _ => true
  | Except.error _ => false

/-- The well-formed-signature predicate: `signature` is the base64 text
of an ECDSA signature of exactly `data` whose signer's public key is
`pub`. -/
def ValidSigFor (pub data signature : Msg) : Prop :=
  ∃ n d, pub = pubKeyOfScalar n d ∧ signature = sign_data n d data

/-! ### AESManager: in-memory path (`encrypt_data` / `decrypt_data`) -/

/-- A Python value entering `AESManager.encrypt_data`: the method accepts
either a `str` (list of code points, converted with
`data.encode('utf-8')`) or a `bytes` value. -/
inductive PyData : Type where
  | str : List Nat → PyData
  | bytes : List Nat → PyData
deriving DecidableEq, Repr

/-- The `isinstance(data, str)` conversion at the top of
`AESManager.encrypt_data`. -/
def pyDataBytes : PyData → List Nat
  | PyData.str s => utf8Encode s
  | PyData.bytes b => b

/-- `AESManager.encrypt_data(data, key)` with the random IV explicit:
pad, CBC-encrypt under `key` with `iv`, prepend the IV and
base64-encode; the result is the symbolic term recording exactly those
inputs. -/
def encrypt_data (data : PyData) (key : Msg) (iv : List Nat) : Msg :=
  Msg.aesb64 key iv (pad16 (pyDataBytes data))

/-- The error cases of `AESManager.decrypt_data`. -/
inductive AesDecErr : Type where
  | paddingError : AesDecErr
  | unicodeError : AesDecErr
deriving DecidableEq, Repr

/-- Stand-in for an AES-CBC decryption performed with the wrong key (or
of bytes that are not an `encrypt_data` output): the result is garbage
whose length is not a multiple of the block size, so the subsequent
`unpad` raises. -/
def garbageBytes : List Nat := [0]

/-- `AESManager.decrypt_data(encrypted_data, key)`: base64-decode, split
off the IV, CBC-decrypt, `unpad` (a `ValueError` on malformed padding is
`paddingError`), then `.decode('utf-8')` (a `UnicodeDecodeError` is
`unicodeError`).  Symbolically, CBC decryption under the key that the
ciphertext was produced with recovers the padded plaintext; under any
other key it yields garbage. -/
def decrypt_data (encrypted : Msg) (key : Msg) : Except AesDecErr (List Nat) :=
  let decrypted_padded : List Nat :=
    match encrypted with
    | Msg.aesb64 k _ padded => if k = key then padded else garbageBytes
    | _ => garbageBytes
  match unpad16 decrypted_padded with
  | none => Except.error AesDecErr.paddingError
  | some d =>
    match utf8Decode d with
    | none => Except.error AesDecErr.unicodeError
    | some s => Except.ok s

/-! ### AESManager: streaming path (`encrypt_file`)

Embedded concretely at byte level, parametric in the keyed AES block
permutation `E` (one 16-byte block in, one block out). -/

/-- Bytewise XOR of two 16-byte blocks (CBC chaining). -/
def xorBlock (a b : List Nat) : List Nat := a.zipWith (fun x y => x ^^^ y) b

/-- CBC-encrypt a sequence of complete 16-byte blocks with chaining value
`prev`, returning the ciphertext blocks and the final chaining value
(the stateful `cipher.encrypt` of pycryptodome, which carries its
chaining value across calls). -/
def cbcEncryptBlocks (E : List Nat → List Nat) (prev : List Nat) :
    List (List Nat) → List (List Nat) × List Nat
  | [] => ([], prev)
  | blk :: rest =>
    let c := E (xorBlock prev blk)
    let (cs, last) := cbcEncryptBlocks E c rest
    (c :: cs, last)

/-- Split a byte string into 16-byte blocks, with an explicit recursion
bound (any `fuel` at least the number of blocks suffices). -/
def toBlocksLoop (fuel : Nat) (d : List Nat) : List (List Nat) :=
  match fuel with
  | 0 => []
  | Nat.succ f => if d = [] then [] else d.take 16 :: toBlocksLoop f (d.drop 16)

/-- Split a byte string into 16-byte blocks (its length is a multiple of
16 at every use site). -/
def toBlocks (d : List Nat) : List (List Nat) := toBlocksLoop d.length d

/-- `cipher.encrypt(chunk)` on a chunk whose length is a multiple of 16:
CBC over its blocks. -/
def cbcEncryptChunk (E : List Nat → List Nat) (prev chunk : List Nat) :
    List Nat × List Nat :=
  let (cs, last) := cbcEncryptBlocks E prev (toBlocks chunk)
  (cs.flatten, last)

/-- The read/encrypt/write loop of `AESManager.encrypt_file`, with an
explicit recursion bound (any `fuel` at least the number of 8192-byte
reads suffices): take the next 8192-byte chunk; stop on an empty read;
pad the chunk only when its length is not a multiple of the block size
(which can happen only for the final, short read); CBC-encrypt and
append. -/
def encryptFileLoop (E : List Nat → List Nat) (fuel : Nat)
    (prev data : List Nat) : List Nat :=
  match fuel with
  | 0 => []
  | Nat.succ f =>
    if data = [] then []
    else
      let chunk := data.take 8192
      let chunk' := if chunk.length % 16 ≠ 0 then pad16 chunk else chunk
      let (ct, prev') := cbcEncryptChunk E prev chunk'
      ct ++ encryptFileLoop E f prev' (data.drop 8192)

/-- `AESManager.encrypt_file(file_path, key)` with the file contents and
random IV explicit: writes the IV first, then the ciphertext chunks in
order. -/
def encrypt_file (E : List Nat → List Nat) (iv data : List Nat) : List Nat :=
  iv ++ encryptFileLoop E data.length iv data

/-- CBC-decrypt a sequence of ciphertext blocks with chaining value
`prev`, given the inverse block permutation `D`. -/
def cbcDecryptBlocks (D : List Nat → List Nat) (prev : List Nat) :
    List (List Nat) → List (List Nat)
  | [] => []
  | blk :: rest => xorBlock prev (D blk) :: cbcDecryptBlocks D blk rest

/-- Modelled from the spec: streaming decryption of an `encrypt_file`
output is absent from the repository; per the spec's symmetric-cipher
contract it "splits IV from ciphertext by fixed block-size offset,
decrypts, and removes padding; fails with `PaddingError` if the
decrypted padding is malformed". -/
def decryptFileStream (D : List Nat → List Nat) (fileBytes : List Nat) :
    Option (List Nat) :=
  let iv := fileBytes.take 16
  let ct := fileBytes.drop 16
  if ct.length % 16 ≠ 0 then none
  else unpad16 (cbcDecryptBlocks D iv (toBlocks ct)).flatten

/-! ### HybridECCAES orchestrator -/

/-- The signature-less fields of a workload package
(`workload_package` as built in `encrypt_workload` steps 5, before the
signature is appended).  `timestamp` and `encryption_time` are the two
clock readings, modelled as naturals. -/
structure PackageCore : Type where
  encrypted_data : Msg
  client_public_key : Msg
  cloud_region : List Nat
  workload_type : List Nat
  timestamp : Nat
  encryption_time : Nat
deriving DecidableEq, Repr

/-- A workload-package dict.  `signature = none` models a dict without
the `"signature"` key (the state between package assembly and signing,
and the state of `package_copy` after `pop`). -/
structure Package : Type where
  core : PackageCore
  signature : Option Msg
deriving DecidableEq, Repr

/-- `json.dumps(package_dict_without_signature, sort_keys=True)`: the six
fields serialized in sorted key order (`client_public_key`,
`cloud_region`, `encrypted_data`, `encryption_time`, `timestamp`,
`workload_type`). -/
def jsonOfCore (c : PackageCore) : Msg :=
  Msg.json c.client_public_key c.cloud_region c.encrypted_data
    c.encryption_time c.timestamp c.workload_type

/-- `dict.copy()` on a package (a shallow copy: an independent mapping
with the same entries). -/
def dictCopy (p : Package) : Package := p

/-- `package_copy.pop("signature")`: removes and returns the signature
entry; a missing key models the `KeyError` the source would raise. -/
def popSignature (p : Package) : Except Unit (Msg × Package) :=
  match p.signature with
  | some s => Except.ok (s, { p with signature := none })
  | none => Except.error ()

/-- The `HybridECCAES` orchestrator state: the selected ECC manager
(curve) and the long-lived server key pair generated in `__init__`, with
the server's random private scalar explicit.  (The AES manager's only
state, the key size, does not influence any embedded operation: the
derived key length is hard-coded to 32 in
`_derive_cloud_specific_key`.) -/
structure Orchestrator : Type where
  ecc : ECCManager
  server_private_key : Nat
deriving DecidableEq, Repr

/-- `HybridECCAES.__init__(ecc_curve, aes_key_size)` with the server's
private scalar explicit: builds the ECCManager (with curve fallback) and
generates the server key pair. -/
def mkHybridECCAES (ecc_curve : String) (serverScalar : Nat) : Orchestrator :=
  { ecc := mkECCManager ecc_curve, server_private_key := serverScalar }

/-- The group order of the orchestrator's curve. -/
def orderOf (o : Orchestrator) : Nat := curveOrder o.ecc.curve

/-- `self.server_public_key`, as produced by `generate_key_pair` in
`__init__`. -/
def server_public_key (o : Orchestrator) : Msg :=
  pubKeyOfScalar (orderOf o) o.server_private_key

/-- `HybridECCAES._derive_cloud_specific_key(shared_secret, metadata)`:
`HKDF(SHA256, length=32, salt=metadata,
info=b'hybrid-ecc-aes-cloud-workload').derive(shared_secret)`. -/
def derive_cloud_specific_key (shared_secret : Msg) (metadata : List Nat) : Msg :=
  Msg.hkdf 32 (some metadata) infoHybrid shared_secret

/-- The metadata context bytes `f"{cloud_region}:{workload_type}"
.encode('utf-8')` (58 is the code of `':'`). -/
def contextBytes (cloud_region workload_type : List Nat) : List Nat :=
  cloud_region ++ [58] ++ workload_type

/-- The AES key computed by `encrypt_workload` steps 2-3 for a given
ephemeral private scalar and context. -/
def encryptSideKey (o : Orchestrator) (eph : Nat)
    (cloud_region workload_type : List Nat) : Msg :=
  derive_cloud_specific_key
    (derive_shared_key eph (server_public_key o))
    (contextBytes cloud_region workload_type)

/-- `HybridECCAES.encrypt_workload(workload_data, cloud_region,
workload_type)`, with the call's environment inputs explicit: the
ephemeral private scalar `eph`, the AES IV `iv`, and the two clock
readings `ts` (package timestamp) and `et` (measured encryption
duration).  Returned alongside the package is the orchestrator state
after the call. -/
def encryptWorkloadSt (o : Orchestrator) (eph : Nat) (iv : List Nat)
    (ts et : Nat) (workload_data : PyData)
    (cloud_region workload_type : List Nat) : Package × Orchestrator :=
  let (client_private_key, client_public_key) := generate_key_pair o.ecc eph
  let shared_secret := derive_shared_key client_private_key (server_public_key o)
  let metadata := contextBytes cloud_region workload_type
  let aes_key := derive_cloud_specific_key shared_secret metadata
  let encrypted_data := encrypt_data workload_data aes_key iv
  let core : PackageCore :=
    { encrypted_data := encrypted_data
      client_public_key := serialize_public_key client_public_key
      cloud_region := cloud_region
      workload_type := workload_type
      timestamp := ts
      encryption_time := et }
  let package_json := jsonOfCore core
  let signature := sign_data (orderOf o) o.server_private_key package_json
  ({ core := core, signature := some signature }, o)

/-- `encrypt_workload`, result only. -/
def encrypt_workload (o : Orchestrator) (eph : Nat) (iv : List Nat)
    (ts et : Nat) (workload_data : PyData)
    (cloud_region workload_type : List Nat) : Package :=
  (encryptWorkloadSt o eph iv ts et workload_data cloud_region workload_type).1

/-- The error outcomes of `decrypt_workload`, named after the spec's
error taxonomy: `integrityError` is the `ValueError("Workload package
signature verification failed")`; `malformedKey` the
`load_pem_public_key` failure; `decryptionFailed` the propagated
padding `ValueError`; `unicodeDecodeError` the propagated
`UnicodeDecodeError`; `keyError` the `pop` of a missing signature. -/
inductive DecErr : Type where
  | integrityError : DecErr
  | malformedKey : DecErr
  | decryptionFailed : DecErr
  | unicodeDecodeError : DecErr
  | keyError : DecErr
deriving DecidableEq, Repr

/-- The successful return value of `decrypt_workload`: the decrypted
data (always a `str`, since `decrypt_data` UTF-8-decodes) plus the
provenance metadata dict. -/
structure DecResult : Type where
  data : PyData
  cloud_region : List Nat
  workload_type : List Nat
  original_timestamp : Nat
  decryption_time : Nat
deriving DecidableEq, Repr

/-- The AES key recomputed by `decrypt_workload` steps 3-4 from the
deserialized client public key and the package's own region and
workload-type fields. -/
def decryptSideKey (o : Orchestrator) (client_public_key : Msg)
    (core : PackageCore) : Msg :=
  derive_cloud_specific_key
    (derive_shared_key o.server_private_key client_public_key)
    (contextBytes core.cloud_region core.workload_type)

/-- `HybridECCAES.decrypt_workload(workload_package)`, with the measured
decryption duration `dt` explicit.  Returns the call outcome together
with the post-call orchestrator state and the post-call state of the
caller's package dict (every mutation in the source is applied to
`package_copy`, never to the argument). -/
def decryptWorkloadSt (o : Orchestrator) (dt : Nat) (workload_package : Package) :
    Except DecErr DecResult × Orchestrator × Package :=
  let package_copy := dictCopy workload_package
  match popSignature package_copy with
  | Except.error _ => (Except.error DecErr.keyError, o, workload_package)
  | Except.ok (signature, package_copy) =>
    let package_json := jsonOfCore package_copy.core
    if verify_signature (server_public_key o) package_json signature then
      match deserialize_public_key package_copy.core.client_public_key with
      | Except.error _ => (Except.error DecErr.malformedKey, o, workload_package)
      | Except.ok client_public_key =>
        let aes_key := decryptSideKey o client_public_key package_copy.core
        match decrypt_data package_copy.core.encrypted_data aes_key with
        | Except.error AesDecErr.paddingError =>
            (Except.error DecErr.decryptionFailed, o, workload_package)
        | Except.error AesDecErr.unicodeError =>
            (Except.error DecErr.unicodeDecodeError, o, workload_package)
        | Except.ok decrypted_data =>
            (Except.ok
              { data := PyData.str decrypted_data
                cloud_region := package_copy.core.cloud_region
                workload_type := package_copy.core.workload_type
                original_timestamp := package_copy.core.timestamp
                decryption_time := dt }, o, workload_package)
    else (Except.error DecErr.integrityError, o, workload_package)

/-- `decrypt_workload`, result only. -/
def decrypt_workload (o : Orchestrator) (dt : Nat) (workload_package : Package) :
    Except DecErr DecResult :=
  (decryptWorkloadSt o dt workload_package).1

instance {ε α : Type} [DecidableEq ε] [DecidableEq α] : DecidableEq (Except ε α) :=
  fun a b =>
  match a, b with
  | Except.ok x, Except.ok y =>
    if h : x = y then Decidable.isTrue (congrArg Except.ok h)
    else Decidable.isFalse (fun he => h (Except.ok.inj he))
  | Except.error x, Except.error y =>
    if h : x = y then Decidable.isTrue (congrArg Except.error h)
    else Decidable.isFalse (fun he => h (Except.error.inj he))
  | Except.ok _, Except.error _ => Decidable.isFalse (fun he => Except.noConfusion he)
  | Except.error _, Except.ok _ => Decidable.isFalse (fun he => Except.noConfusion he)

/-- The symmetric key as the spec's words describe it (for comparison
with the key the code computes): "a single HKDF-SHA256 expansion applied
directly to the raw ECDH shared secret, with salt equal to the UTF-8
bytes of `{region}:{workload_type}`, info tag
`hybrid-ecc-aes-cloud-workload`, and output length 32 bytes". -/
def specSingleHkdfKey (o : Orchestrator) (eph : Nat) (R T : List Nat) : Msg :=
  Msg.hkdf 32 (some (contextBytes R T)) infoHybrid
    (ecdhExchange eph (server_public_key o))

/-! ### Concrete sample values used by witnesses and counterexamples -/

/-- A sample orchestrator: default curve, server private scalar 7. -/
def hybrid0 : Orchestrator := mkHybridECCAES "secp256r1" 7

/-- A sample all-zero 16-byte IV. -/
def iv0 : List Nat := List.replicate 16 0

/-- The AES key `decrypt_workload` recomputes for `hybrid0`, an
ephemeral public key with scalar 5 and context `"r":"t"`. -/
def badPadKey : Msg :=
  derive_cloud_specific_key
    (derive_shared_key hybrid0.server_private_key (pubKeyOfScalar (orderOf hybrid0) 5))
    (contextBytes (strBytes "r") (strBytes "t"))

/-- A package core whose AES payload decrypts (under the key
`decrypt_workload` recomputes) to 16 zero bytes — malformed PKCS#7
padding. -/
def badPadCore : PackageCore :=
  { encrypted_data := Msg.aesb64 badPadKey iv0 (List.replicate 16 0)
    client_public_key := Msg.pem (pubKeyOfScalar (orderOf hybrid0) 5)
    cloud_region := strBytes "r"
    workload_type := strBytes "t"
    timestamp := 0
    encryption_time := 0 }

/-- `badPadCore` signed by `hybrid0`'s server key: its signature
verifies, but the symmetric decryption step hits malformed padding. -/
def badPadPackage : Package :=
  { core := badPadCore
    signature := some (sign_data (orderOf hybrid0) hybrid0.server_private_key
      (jsonOfCore badPadCore)) }

/-! ### Helper lemmas -/

theorem mul_mod_absorb (a b n : Nat) : a * (b % n) % n = a * b % n := by
  conv_lhs => rw [Nat.mul_mod, Nat.mod_mod_of_dvd b (dvd_refl n), ← Nat.mul_mod]

/-- ECDH symmetry at the exchange level: scalar `a` applied to `[b]G`
gives the same point bytes as scalar `b` applied to `[a]G`. -/
theorem ecdhExchange_comm (n a b : Nat) :
    ecdhExchange a (pubKeyOfScalar n b) = ecdhExchange b (pubKeyOfScalar n a) := by
  simp only [ecdhExchange, pubKeyOfScalar, mul_mod_absorb]
  rw [Nat.mul_comm]

/-- PKCS#7 round-trip: unpadding a padded byte string recovers it. -/
theorem unpad16_pad16 (d : List Nat) : unpad16 (pad16 d) = some d := by
  have hr : d.length % 16 < 16 := Nat.mod_lt _ (by omega)
  set p := 16 - d.length % 16 with hp
  have hp1 : 1 ≤ p := by omega
  have hp16 : p ≤ 16 := by omega
  have hlen : (pad16 d).length = d.length + p := by
    simp [pad16, ← hp]
  have hmod : (d.length + p) % 16 = 0 := by omega
  have hlast : (pad16 d).getLast? = some p := by
    unfold pad16
    rw [← hp, List.getLast?_append_of_ne_nil]
    · have : p - 1 + 1 = p := by omega
      rw [← this, List.replicate_succ']
      simp
    · simp; omega
  have hdrop : (pad16 d).drop d.length = List.replicate p p := by
    unfold pad16
    rw [← hp, List.drop_left]
  have htake : (pad16 d).take d.length = d := by
    unfold pad16
    rw [← hp, List.take_left]
  unfold unpad16
  rw [hlen, hlast, if_neg (by omega)]
  show (if 1 ≤ p ∧ p ≤ 16 ∧ p ≤ d.length + p ∧
      List.drop (d.length + p - p) (pad16 d) = List.replicate p p then
      some (List.take (d.length + p - p) (pad16 d)) else none) = some d
  have hsub : d.length + p - p = d.length := by omega
  rw [hsub, hdrop, htake, if_pos ⟨hp1, hp16, by omega, rfl⟩]

theorem decodeOne_enc1 (c : Nat) (h : c < 128) (l : List Nat) :
    decodeOne (utf8EncodeChar c ++ l) = some (c, l) := by
  have e : utf8EncodeChar c = [c] := by
    unfold utf8EncodeChar; rw [if_pos h]
  rw [e]
  show decodeOne (c :: l) = some (c, l)
  simp only [decodeOne]
  rw [if_pos h]

theorem decodeOne_enc2 (c : Nat) (h1 : 128 ≤ c) (h2 : c < 2048) (l : List Nat) :
    decodeOne (utf8EncodeChar c ++ l) = some (c, l) := by
  have e : utf8EncodeChar c = [192 + c / 64, 128 + c % 64] := by
    unfold utf8EncodeChar; rw [if_neg (by omega), if_pos h2]
  rw [e]
  show decodeOne ((192 + c / 64) :: (128 + c % 64) :: l) = some (c, l)
  simp only [decodeOne, List.getD_cons_zero, List.length_cons, List.drop_succ_cons,
    List.drop_zero, ContByte]
  rw [if_neg (by omega), if_neg (by omega), if_pos (by omega)]
  have hc : (192 + c / 64 - 192) * 64 + (128 + c % 64 - 128) = c := by omega
  rw [hc, if_pos (by omega)]

theorem decodeOne_enc3 (c : Nat) (h1 : 2048 ≤ c) (h2 : c < 65536)
    (h3 : ValidScalar c) (l : List Nat) :
    decodeOne (utf8EncodeChar c ++ l) = some (c, l) := by
  have e : utf8EncodeChar c = [224 + c / 4096, 128 + c / 64 % 64, 128 + c % 64] := by
    unfold utf8EncodeChar; rw [if_neg (by omega), if_neg (by omega), if_pos h2]
  rw [e]
  show decodeOne ((224 + c / 4096) :: (128 + c / 64 % 64) :: (128 + c % 64) :: l) =
    some (c, l)
  simp only [decodeOne, List.getD_cons_zero, List.getD_cons_succ, List.length_cons,
    List.drop_succ_cons, List.drop_zero, ContByte]
  rw [if_neg (by omega), if_neg (by omega), if_neg (by omega), if_pos (by omega),
    if_pos (by omega)]
  have hc : (224 + c / 4096 - 224) * 4096 + (128 + c / 64 % 64 - 128) * 64 +
      (128 + c % 64 - 128) = c := by omega
  rw [hc]
  have hv : c < 55296 ∨ 57344 ≤ c := by
    rcases h3 with h3 | h3
    · exact Or.inl h3
    · exact Or.inr h3.1
  rw [if_pos ⟨h1, hv⟩]

theorem decodeOne_enc4 (c : Nat) (h1 : 65536 ≤ c) (h2 : c < 1114112)
    (l : List Nat) :
    decodeOne (utf8EncodeChar c ++ l) = some (c, l) := by
  have e : utf8EncodeChar c =
      [240 + c / 262144, 128 + c / 4096 % 64, 128 + c / 64 % 64, 128 + c % 64] := by
    unfold utf8EncodeChar
    rw [if_neg (by omega), if_neg (by omega), if_neg (by omega)]
  rw [e]
  show decodeOne
    ((240 + c / 262144) :: (128 + c / 4096 % 64) :: (128 + c / 64 % 64) ::
      (128 + c % 64) :: l) = some (c, l)
  simp only [decodeOne, List.getD_cons_zero, List.getD_cons_succ, List.length_cons,
    List.drop_succ_cons, List.drop_zero, ContByte]
  rw [if_neg (by omega), if_neg (by omega), if_neg (by omega), if_neg (by omega),
    if_pos (by omega), if_pos (by omega)]
  have hc : (240 + c / 262144 - 240) * 262144 + (128 + c / 4096 % 64 - 128) * 4096 +
      (128 + c / 64 % 64 - 128) * 64 + (128 + c % 64 - 128) = c := by omega
  rw [hc, if_pos ⟨h1, h2⟩]

/-- One encoded scalar at the front of a byte stream decodes to that
scalar, leaving the rest of the stream untouched. -/
theorem decodeOne_encChar (c : Nat) (h : ValidScalar c) (l : List Nat) :
    decodeOne (utf8EncodeChar c ++ l) = some (c, l) := by
  rcases Nat.lt_or_ge c 128 with h1 | h1
  · exact decodeOne_enc1 c h1 l
  rcases Nat.lt_or_ge c 2048 with h2 | h2
  · exact decodeOne_enc2 c h1 h2 l
  rcases Nat.lt_or_ge c 65536 with h3 | h3
  · exact decodeOne_enc3 c h2 h3 h l
  have h4 : c < 1114112 := by
    rcases h with h | h
    · omega
    · exact h.2
  exact decodeOne_enc4 c h3 h4 l

theorem utf8EncodeChar_ne_nil (c : Nat) : utf8EncodeChar c ≠ [] := by
  unfold utf8EncodeChar
  split
  · simp
  split
  · simp
  split
  · simp
  · simp

/-- The decoding loop inverts `utf8Encode` given any fuel at least the
number of encoded scalars. -/
theorem utf8DecodeLoop_encode (fuel : Nat) (s : List Nat) (hf : s.length ≤ fuel)
    (h : ∀ c ∈ s, ValidScalar c) :
    utf8DecodeLoop fuel (utf8Encode s) = some s := by
  induction fuel generalizing s with
  | zero =>
    have : s = [] := by
      cases s with
      | nil => rfl
      | cons a t => simp at hf
    subst this
    rfl
  | succ f ih =>
    cases s with
    | nil => rfl
    | cons c rest =>
      have he : utf8Encode (c :: rest) = utf8EncodeChar c ++ utf8Encode rest := by
        simp [utf8Encode]
      have hne : utf8EncodeChar c ++ utf8Encode rest ≠ [] := by
        simp [utf8EncodeChar_ne_nil c]
      rw [he]
      unfold utf8DecodeLoop
      rw [if_neg hne, decodeOne_encChar c (h c (by simp)) (utf8Encode rest)]
      show Option.map (fun s => c :: s) (utf8DecodeLoop f (utf8Encode rest)) =
        some (c :: rest)
      rw [ih rest (by simp at hf; omega) (fun x hx => h x (by simp [hx]))]
      rfl

/-- Each scalar encodes to at least one byte. -/
theorem length_le_utf8Encode_length (s : List Nat) :
    s.length ≤ (utf8Encode s).length := by
  induction s with
  | nil => simp [utf8Encode]
  | cons c rest ih =>
    have he : utf8Encode (c :: rest) = utf8EncodeChar c ++ utf8Encode rest := by
      simp [utf8Encode]
    rw [he]
    simp only [List.length_append, List.length_cons]
    have : 1 ≤ (utf8EncodeChar c).length := by
      rcases List.exists_cons_of_ne_nil (utf8EncodeChar_ne_nil c) with ⟨a, t, hat⟩
      simp [hat]
    omega

/-- UTF-8 round-trip: decoding the encoding of any string of Unicode
scalar values recovers the string (Python:
`s.encode('utf-8').decode('utf-8') == s`). -/
theorem utf8Decode_encode (s : List Nat) (h : ∀ c ∈ s, ValidScalar c) :
    utf8Decode (utf8Encode s) = some s :=
  utf8DecodeLoop_encode (utf8Encode s).length s (length_le_utf8Encode_length s) h

/-- The canonical sorted-key JSON serialization is injective on
signature-less packages. -/
theorem jsonOfCore_inj {a b : PackageCore} (h : jsonOfCore a = jsonOfCore b) :
    a = b := by
  cases a; cases b
  simp only [jsonOfCore, Msg.json.injEq] at h
  simp_all

/-- ECDH symmetry lifted through `derive_shared_key`. -/
theorem derive_shared_key_symm (n a b L : Nat) :
    derive_shared_key a (pubKeyOfScalar n b) L =
      derive_shared_key b (pubKeyOfScalar n a) L := by
  unfold derive_shared_key
  rw [ecdhExchange_comm]

/-- The AES key recomputed on decryption from an honestly produced
package equals the key used on encryption. -/
theorem decrypt_key_eq_encrypt_key (o : Orchestrator) (eph : Nat)
    (R T : List Nat) :
    derive_cloud_specific_key
        (derive_shared_key o.server_private_key (pubKeyOfScalar (orderOf o) eph))
        (contextBytes R T) =
      encryptSideKey o eph R T := by
  unfold encryptSideKey server_public_key
  rw [derive_shared_key_symm]

/-! ### Claim C1 -/

/-- C1 (amended, counterexample `C1_counterexample`): for every plaintext
*string* P (list of Unicode scalar values), region R and workload type T,
decrypting the package produced by `encrypt_workload(P, R, T)` on the
same orchestrator instance succeeds and returns a result whose `data`
field is the string P and whose metadata reports `cloud_region` R,
`workload_type` T and the original timestamp.  (For `bytes` plaintexts
the claim fails: `decrypt_data` UTF-8-decodes, so the returned data is a
`str`, never the original `bytes` object.) -/
theorem C1_roundtrip_str (o : Orchestrator) (eph : Nat) (iv : List Nat)
    (ts et dt : Nat) (s R T : List Nat) (hs : ∀ c ∈ s, ValidScalar c) :
    decrypt_workload o dt (encrypt_workload o eph iv ts et (PyData.str s) R T) =
      Except.ok { data := PyData.str s, cloud_region := R, workload_type := T,
                  original_timestamp := ts, decryption_time := dt } := by
  simp only [decrypt_workload, decryptWorkloadSt, encrypt_workload, encryptWorkloadSt,
    dictCopy, popSignature, generate_key_pair, server_public_key, pubKeyOfScalar,
    serialize_public_key, deserialize_public_key, sign_data, verify_signature,
    verifyAttempt, jsonOfCore, derive_cloud_specific_key, derive_shared_key,
    ecdhExchange, encrypt_data, decrypt_data, decryptSideKey, contextBytes,
    pyDataBytes, orderOf, mul_mod_absorb, unpad16_pad16, utf8Decode_encode s hs,
    Nat.mul_comm]
  simp [unpad16_pad16, utf8Decode_encode s hs]

/-- C1 witness: the spec's concrete scenario — encrypt the string
`"hello-workload"` with region `"us-west-2"` and type
`"web-application"`, decrypt, and get the string back with its
metadata. -/
theorem C1_roundtrip_str_witness :
    (∀ c ∈ strBytes "hello-workload", ValidScalar c) ∧
    decrypt_workload hybrid0 3 (encrypt_workload hybrid0 5 iv0 11 2
        (PyData.str (strBytes "hello-workload")) (strBytes "us-west-2")
        (strBytes "web-application")) =
      Except.ok { data := PyData.str (strBytes "hello-workload"),
                  cloud_region := strBytes "us-west-2",
                  workload_type := strBytes "web-application",
                  original_timestamp := 11, decryption_time := 3 } :=
  ⟨by decide, C1_roundtrip_str hybrid0 5 iv0 11 2 3 (strBytes "hello-workload")
    (strBytes "us-west-2") (strBytes "web-application") (by decide)⟩

/-- C1 counterexample: for the `bytes` plaintext `b"hello"` decryption
succeeds but returns the *string* `"hello"`, which is a different Python
value than the input bytes — so `data == P` fails and the claim is false
for general (non-`str`) plaintexts. -/
theorem C1_counterexample :
    decrypt_workload hybrid0 0 (encrypt_workload hybrid0 5 iv0 0 0
        (PyData.bytes (strBytes "hello")) (strBytes "us-west-2")
        (strBytes "web-application")) =
      Except.ok { data := PyData.str (strBytes "hello"),
                  cloud_region := strBytes "us-west-2",
                  workload_type := strBytes "web-application",
                  original_timestamp := 0, decryption_time := 0 } ∧
    PyData.str (strBytes "hello") ≠ PyData.bytes (strBytes "hello") := by
  decide

/-! ### Claim C2 -/

/-- C2: for every package produced by `encrypt_workload`, any
modification of its signed fields (ciphertext, serialized ephemeral
public key, region, workload type, timestamp, or encryption duration) —
in particular any byte flip, which always yields a different field value
— makes `decrypt_workload` fail with the integrity error ("signature
verification failed") rather than return a result. -/
theorem C2_tamper_detection (o : Orchestrator) (eph : Nat) (iv : List Nat)
    (ts et dt : Nat) (data : PyData) (R T : List Nat) (core' : PackageCore)
    (hne : core' ≠ (encrypt_workload o eph iv ts et data R T).core) :
    decrypt_workload o dt
      { core := core',
        signature := (encrypt_workload o eph iv ts et data R T).signature } =
      Except.error DecErr.integrityError := by
  have hJ : ¬ (jsonOfCore (encrypt_workload o eph iv ts et data R T).core =
      jsonOfCore core') := fun hb => hne (jsonOfCore_inj hb).symm
  have hsig : (encrypt_workload o eph iv ts et data R T).signature =
      some (sign_data (orderOf o) o.server_private_key
        (jsonOfCore (encrypt_workload o eph iv ts et data R T).core)) := rfl
  rw [hsig]
  simp [decrypt_workload, decryptWorkloadSt, dictCopy, popSignature, sign_data,
    verify_signature, verifyAttempt, hJ]

/-- C2 witness: tampering with the region field of a concrete package
(replacing `"r"` by `"x"`) is detected. -/
theorem C2_tamper_detection_witness :
    decrypt_workload hybrid0 0
      { core := { (encrypt_workload hybrid0 5 iv0 0 0 (PyData.str (strBytes "hi"))
                    (strBytes "r") (strBytes "t")).core with
                  cloud_region := strBytes "x" },
        signature := (encrypt_workload hybrid0 5 iv0 0 0 (PyData.str (strBytes "hi"))
          (strBytes "r") (strBytes "t")).signature } =
      Except.error DecErr.integrityError :=
  C2_tamper_detection hybrid0 5 iv0 0 0 0 (PyData.str (strBytes "hi"))
    (strBytes "r") (strBytes "t") _ (by decide)

/-! ### Claim C3 -/

/-- C3 (amended, counterexample `C3_counterexample`): the symmetric key
used to encrypt the payload is a *double* HKDF-SHA256 expansion: the
outer one has salt `"{region}:{workload_type}"`, info
`hybrid-ecc-aes-cloud-workload` and length 32, but its input keying
material is not the raw ECDH shared secret — it is the output of
`derive_shared_key`, which already applies HKDF-SHA256 (salt `None`,
info `cloud-workload-encryption`, length 32) to the raw ECDH secret;
`derive_shared_key` accepts no caller-supplied salt. -/
theorem C3_double_hkdf (o : Orchestrator) (eph : Nat) (iv : List Nat)
    (ts et : Nat) (data : PyData) (R T : List Nat) :
    (encrypt_workload o eph iv ts et data R T).core.encrypted_data =
      Msg.aesb64
        (Msg.hkdf 32 (some (contextBytes R T)) infoHybrid
          (Msg.hkdf 32 none infoCloud (ecdhExchange eph (server_public_key o))))
        iv (pad16 (pyDataBytes data)) ∧
    Msg.hkdf 32 (some (contextBytes R T)) infoHybrid
        (Msg.hkdf 32 none infoCloud (ecdhExchange eph (server_public_key o))) ≠
      specSingleHkdfKey o eph R T := by
  constructor
  · rfl
  · intro heq
    have h2 := (Msg.hkdf.inj heq).2.2.2
    simp [specSingleHkdfKey, server_public_key, pubKeyOfScalar, ecdhExchange] at h2

/-- C3 counterexample: at a concrete input, the ciphertext the code
produces is not the one that the claimed single-HKDF key derivation
would produce. -/
theorem C3_counterexample :
    (encrypt_workload hybrid0 5 iv0 0 0 (PyData.str (strBytes "hi"))
        (strBytes "r") (strBytes "t")).core.encrypted_data ≠
      Msg.aesb64 (specSingleHkdfKey hybrid0 5 (strBytes "r") (strBytes "t")) iv0
        (pad16 (pyDataBytes (PyData.str (strBytes "hi")))) := by
  decide

/-! ### Claim C4 -/

/-- C4 (amended, counterexample `C4_counterexample`): encrypting the
same plaintext under two contexts with the same fixed ephemeral key pair
yields different derived keys and different ciphertexts *provided the
combined context strings `"{R1}:{T1}"` and `"{R2}:{T2}"` differ* (for
example, whenever the region strings contain no colon this follows from
(R1,T1) ≠ (R2,T2)).  Mere inequality of the pairs is not enough, since
the colon-join is not injective. -/
theorem C4_context_binding (o : Orchestrator) (eph : Nat) (iv : List Nat)
    (ts et : Nat) (data : PyData) (R1 T1 R2 T2 : List Nat)
    (h : contextBytes R1 T1 ≠ contextBytes R2 T2) :
    encryptSideKey o eph R1 T1 ≠ encryptSideKey o eph R2 T2 ∧
    (encrypt_workload o eph iv ts et data R1 T1).core.encrypted_data ≠
      (encrypt_workload o eph iv ts et data R2 T2).core.encrypted_data := by
  have hkey : ∀ sh : Msg,
      Msg.hkdf 32 (some (contextBytes R1 T1)) infoHybrid sh ≠
        Msg.hkdf 32 (some (contextBytes R2 T2)) infoHybrid sh := by
    intro sh heq
    exact h (Option.some.inj (Msg.hkdf.inj heq).2.1)
  constructor
  · exact hkey _
  · intro heq
    exact hkey _ (Msg.aesb64.inj heq).1

/-- C4 witness: contexts `("a","b")` and `("a","c")` give different keys
and different ciphertexts. -/
theorem C4_context_binding_witness :
    encryptSideKey hybrid0 5 (strBytes "a") (strBytes "b") ≠
      encryptSideKey hybrid0 5 (strBytes "a") (strBytes "c") ∧
    (encrypt_workload hybrid0 5 iv0 0 0 (PyData.str (strBytes "P")) (strBytes "a")
        (strBytes "b")).core.encrypted_data ≠
      (encrypt_workload hybrid0 5 iv0 0 0 (PyData.str (strBytes "P")) (strBytes "a")
        (strBytes "c")).core.encrypted_data :=
  C4_context_binding hybrid0 5 iv0 0 0 (PyData.str (strBytes "P"))
    (strBytes "a") (strBytes "b") (strBytes "a") (strBytes "c") (by decide)

/-- C4 counterexample: the context pairs `("a","b:c")` and `("a:b","c")`
differ, yet with the same ephemeral key (scalar 5) and the same IV they
yield the *same* derived key and the *same* ciphertext, because both
colon-joins produce the metadata string `"a:b:c"`. -/
theorem C4_counterexample :
    (strBytes "a" ≠ strBytes "a:b" ∨ strBytes "b:c" ≠ strBytes "c") ∧
    encryptSideKey hybrid0 5 (strBytes "a") (strBytes "b:c") =
      encryptSideKey hybrid0 5 (strBytes "a:b") (strBytes "c") ∧
    (encrypt_workload hybrid0 5 iv0 0 0 (PyData.str (strBytes "P")) (strBytes "a")
        (strBytes "b:c")).core.encrypted_data =
      (encrypt_workload hybrid0 5 iv0 0 0 (PyData.str (strBytes "P")) (strBytes "a:b")
        (strBytes "c")).core.encrypted_data := by
  decide

/-! ### Claim C5 -/

/-- C5 (code bug): on a 16-byte input — any length divisible by 16,
including the 8192-byte chunk boundary itself, behaves alike —
`encrypt_file` writes the IV followed by the bare ciphertext with *no*
padding (the loop pads only when the chunk length is not a multiple of
the block size), so the pad-removing streaming decryption of the spec
does not reproduce the input: here it silently strips a data byte,
returning 15 bytes instead of 16.  The block permutation is instantiated
with `id` (the embedding is parametric in the permutation and the
padding logic is key-independent). -/
theorem C5_stream_boundary_bug :
    encrypt_file id iv0 (List.replicate 16 1) = iv0 ++ List.replicate 16 1 ∧
    decryptFileStream id (encrypt_file id iv0 (List.replicate 16 1)) =
      some (List.replicate 15 1) ∧
    List.replicate 15 1 ≠ List.replicate 16 1 := by
  decide

/-! ### Claim C6 -/

/-- C6 (amended, counterexample `C6_counterexample`): the curve registry
maps the identifiers `"secp256r1"`, `"secp384r1"` and `"secp521r1"` (not
`"P-256"`, `"P-384"`, `"P-521"`) to the corresponding curves, and for
every other identifier string — including the NIST names — construction
selects the default curve SECP256R1 without any error path. -/
theorem C6_curve_registry :
    curve_map "secp256r1" = some Curve.secp256r1 ∧
    curve_map "secp384r1" = some Curve.secp384r1 ∧
    curve_map "secp521r1" = some Curve.secp521r1 ∧
    ∀ s : String, curve_map s = none →
      mkECCManager s = { curve := Curve.secp256r1 } := by
  refine ⟨by decide, by decide, by decide, fun s hs => ?_⟩
  unfold mkECCManager
  rw [hs]
  rfl

/-- C6 witness: the identifier `"P-521"` is not in the registry and
falls back to SECP256R1 without raising. -/
theorem C6_curve_registry_witness :
    curve_map "P-521" = none ∧
    mkECCManager "P-521" = { curve := Curve.secp256r1 } :=
  ⟨by decide, C6_curve_registry.2.2.2 "P-521" (by decide)⟩

/-- C6 counterexample: `"P-384"` is not mapped to P-384 parameters — the
constructor silently falls back to SECP256R1. -/
theorem C6_counterexample :
    (mkECCManager "P-384").curve = Curve.secp256r1 ∧
    (mkECCManager "P-384").curve ≠ Curve.secp384r1 := by
  decide

/-! ### Claim C7 -/

/-- C7: `verify_signature` runs its whole body inside
`try/except Exception: return False`, so it always returns a `Bool`
(never raises): it returns `true` exactly when the supplied signature
value is the base64 text of an ECDSA signature of exactly the given
message under the given public key, and `false` on every mismatched,
garbage or malformed input. -/
theorem C7_verify_total (pub msgData sigVal : Msg) :
    verify_signature pub msgData sigVal = true ↔ ValidSigFor pub msgData sigVal := by
  constructor
  · intro hv
    cases sigVal with
    | b64 inner =>
      cases inner with
      | ecdsaSig n d m =>
        simp only [verify_signature, verifyAttempt] at hv
        by_cases hcond : pub = Msg.point n (d % n) ∧ m = msgData
        · refine ⟨n, d, hcond.1, ?_⟩
          unfold sign_data
          rw [hcond.2]
        · rw [if_neg hcond] at hv
          simp at hv
      | bytes bs => simp [verify_signature, verifyAttempt] at hv
      | point a b => simp [verify_signature, verifyAttempt] at hv
      | hkdf a b c d => simp [verify_signature, verifyAttempt] at hv
      | aesb64 a b c => simp [verify_signature, verifyAttempt] at hv
      | pem a => simp [verify_signature, verifyAttempt] at hv
      | b64 a => simp [verify_signature, verifyAttempt] at hv
      | json a b c d e f => simp [verify_signature, verifyAttempt] at hv
    | bytes bs => simp [verify_signature, verifyAttempt] at hv
    | point a b => simp [verify_signature, verifyAttempt] at hv
    | hkdf a b c d => simp [verify_signature, verifyAttempt] at hv
    | aesb64 a b c => simp [verify_signature, verifyAttempt] at hv
    | pem a => simp [verify_signature, verifyAttempt] at hv
    | ecdsaSig a b c => simp [verify_signature, verifyAttempt] at hv
    | json a b c d e f => simp [verify_signature, verifyAttempt] at hv
  · rintro ⟨n, d, hpub, hsig⟩
    subst hpub
    subst hsig
    simp [verify_signature, verifyAttempt, sign_data, pubKeyOfScalar]

/-! ### Claim C8 -/

/-- C8: whenever the symmetric decryption step inside `decrypt_workload`
hits malformed padding (the `unpad` `ValueError`, typical of a wrong
derived key or corrupted ciphertext), the call returns the
decryption-failed error — a failure propagated to the caller, distinct
from any successful return. -/
theorem C8_padding_error_propagates (o : Orchestrator) (dt : Nat)
    (pkg : Package) (sig clientPub : Msg)
    (hsig : pkg.signature = some sig)
    (hver : verify_signature (server_public_key o) (jsonOfCore pkg.core) sig = true)
    (hdes : deserialize_public_key pkg.core.client_public_key = Except.ok clientPub)
    (hdec : decrypt_data pkg.core.encrypted_data (decryptSideKey o clientPub pkg.core) =
      Except.error AesDecErr.paddingError) :
    decrypt_workload o dt pkg = Except.error DecErr.decryptionFailed := by
  obtain ⟨core, s⟩ := pkg
  simp only [Package.signature] at hsig
  subst hsig
  simp only [Package.core] at hver hdes hdec
  simp only [decrypt_workload, decryptWorkloadSt, dictCopy, popSignature]
  rw [if_pos hver]
  rw [hdes]
  show (match decrypt_data core.encrypted_data (decryptSideKey o clientPub core) with
    | Except.error AesDecErr.paddingError =>
        (Except.error DecErr.decryptionFailed, o,
          (⟨core, some sig⟩ : Package))
    | Except.error AesDecErr.unicodeError =>
        (Except.error DecErr.unicodeDecodeError, o,
          (⟨core, some sig⟩ : Package))
    | Except.ok decrypted_data =>
        (Except.ok ({ data := PyData.str decrypted_data
                      cloud_region := core.cloud_region
                      workload_type := core.workload_type
                      original_timestamp := core.timestamp
                      decryption_time := dt } : DecResult), o,
          (⟨core, some sig⟩ : Package))).1 = Except.error DecErr.decryptionFailed
  rw [hdec]

/-- C8 witness: a package honestly signed by `hybrid0`'s server key
whose payload unpads to garbage is rejected with the
decryption-failed error. -/
theorem C8_padding_error_propagates_witness :
    decrypt_workload hybrid0 0 badPadPackage = Except.error DecErr.decryptionFailed :=
  C8_padding_error_propagates hybrid0 0 badPadPackage
    (sign_data (orderOf hybrid0) hybrid0.server_private_key (jsonOfCore badPadCore))
    (pubKeyOfScalar (orderOf hybrid0) 5) rfl (by decide) rfl (by decide)

/-! ### Claim C9 -/

/-- C9: `derive_shared_key` is symmetric in which side contributes the
private key — for any two key pairs on the same curve (group order `n`)
and any output length `L`, `derive_shared_key(aPriv, bPub, L) =
derive_shared_key(bPriv, aPub, L)`; consequently the decryption side
(service private key with ephemeral public key) recomputes exactly the
key the encryption side (ephemeral private key with service public key)
derived. -/
theorem C9_shared_key_symmetric (n a b L : Nat) (o : Orchestrator) (eph : Nat) :
    derive_shared_key a (pubKeyOfScalar n b) L =
      derive_shared_key b (pubKeyOfScalar n a) L ∧
    derive_shared_key o.server_private_key (pubKeyOfScalar (orderOf o) eph) =
      derive_shared_key eph (server_public_key o) :=
  ⟨derive_shared_key_symm n a b L,
    derive_shared_key_symm (orderOf o) o.server_private_key eph 32⟩

/-! ### Claim C10 -/

/-- C10: `decrypt_workload` never mutates its input package — the
signature is popped from a `dict.copy()`, so on every path (success and
every failure) the caller's package still holds all its entries,
signature included — and neither `encrypt_workload` nor
`decrypt_workload` reassigns the orchestrator's server key pair set at
construction. -/
theorem C10_no_mutation (o : Orchestrator) (dt : Nat) (pkg : Package)
    (eph : Nat) (iv : List Nat) (ts et : Nat) (data : PyData) (R T : List Nat) :
    (decryptWorkloadSt o dt pkg).2 = (o, pkg) ∧
    (encryptWorkloadSt o eph iv ts et data R T).2 = o := by
  refine ⟨?_, rfl⟩
  obtain ⟨core, sig⟩ := pkg
  cases sig with
  | none => rfl
  | some s =>
    simp only [decryptWorkloadSt, dictCopy, popSignature]
    split
    · split
      · rfl
      · split <;> rfl
    · rfl

end HybridEccAes
